import Mathlib

/-!
# Verification of the PDF editor's page-image cache and document model

Shallow embedding of `src/models/document_cache.py` (class `DocumentCache`)
and `src/models/pdf_document.py` (class `PDFDocument`) from the
MaximilianAltrock/pdf-editor repository, with theorems settling the claims
about the LRU cache and the document resource that owns it.

Modelling conventions:
* Python's `OrderedDict` backing the cache is a list of key/value pairs,
  front = oldest (least recently used), back = newest (most recently used):
  `move_to_end` moves an entry to the back, `popitem(last=False)` pops the
  front.  `OrderedDict.popitem` on an empty dict raises `KeyError`; methods
  that can raise return `Except`.
* A cache key is `(page.number, round(zoom, 2))`.  Zoom factors are
  rationals; the rounded zoom component of a key is represented by its value
  in integer hundredths, computed by `round2` — the theorem `round2_eq`
  shows `round2 z = round (z * 100)`, i.e. `round(zoom, 2)` scaled by 100.
  (Python's float tie-breaking at half-way points is not observable in any
  claim.)  Two zoom factors collide in the cache exactly when they round to
  the same two-decimal value, which this representation preserves.
* The pixmap/image payload is an opaque type parameter `α`.
-/

/-- A cache key: `(page.number, zoom rounded to 2 decimals, in hundredths)`. -/
abbrev CacheKey : Type := Nat × ℤ

/-- `round(zoom, 2)` in integer hundredths: `round (z * 100)`, written as an
integer formula so that it evaluates by kernel reduction (see `round2_eq`). -/
def round2 (z : ℚ) : ℤ := (200 * z.num + z.den) / (2 * (z.den : ℤ))

/-- The only exception the cache itself can raise: `KeyError` from
`OrderedDict.popitem(last=False)` on an empty dict. -/
inductive CacheError : Type
  | keyError : CacheError
deriving DecidableEq

/-- `DocumentCache` state: the capacity bound `max_size` and the ordered
mapping `_page_cache` (front = least recently used). -/
structure DocumentCache (α : Type) : Type where
  max_size : Nat
  page_cache : List (CacheKey × α)
deriving DecidableEq

/-- Dict lookup on the ordered association list (`cache_key in self._page_cache`
followed by `self._page_cache[cache_key]`): first binding of the key. -/
def findEntry {α : Type} : List (CacheKey × α) → CacheKey → Option α
  | [], _ => none
  | e :: rest, k => if e.1 = k then some e.2 else findEntry rest k

/-- Remove the (unique) binding of a key from the ordered association list;
together with an append this models `OrderedDict.move_to_end`. -/
def eraseEntry {α : Type} : List (CacheKey × α) → CacheKey → List (CacheKey × α)
  | [], _ => []
  | e :: rest, k => if e.1 = k then rest else e :: eraseEntry rest k

namespace DocumentCache

/-- `DocumentCache(max_size)`: the cache starts empty. -/
def init (α : Type) (max_size : Nat) : DocumentCache α :=
  { max_size := max_size, page_cache := [] }

/-- `get_page_image(page, zoom)`: round the zoom, look the key up; on a hit,
move the entry to the most-recently-used end and return the stored image; on
a miss return `None` with no side effect. -/
def get_page_image {α : Type} (c : DocumentCache α) (page : Nat) (zoom : ℚ) :
    Option α × DocumentCache α :=
  match findEntry c.page_cache (page, round2 zoom) with
  | some img =>
      (some img,
       { c with page_cache := eraseEntry c.page_cache (page, round2 zoom) ++
           [((page, round2 zoom), img)] })
  | none => (none, c)

/-- `add_page_image(page, image, zoom)`: round the zoom; if the key is already
present, return without modification; otherwise, if `len >= max_size`, pop the
oldest entry (`popitem(last=False)`, a `KeyError` on an empty dict), then
append the new entry at the most-recently-used end. -/
def add_page_image {α : Type} (c : DocumentCache α) (page : Nat) (image : α)
    (zoom : ℚ) : Except CacheError (DocumentCache α) :=
  if (findEntry c.page_cache (page, round2 zoom)).isSome then
    .ok c
  else if c.max_size ≤ c.page_cache.length then
    match c.page_cache with
    | [] => .error CacheError.keyError
    | _ :: rest =>
        .ok { c with page_cache := rest ++ [((page, round2 zoom), image)] }
  else
    .ok { c with page_cache := c.page_cache ++ [((page, round2 zoom), image)] }

/-- `clear()`: remove all entries. -/
def clear {α : Type} (c : DocumentCache α) : DocumentCache α :=
  { c with page_cache := [] }

/-- The loop body of `remove_page`: delete every entry whose page-index
component equals `p`. -/
def removeEntries {α : Type} : List (CacheKey × α) → Nat → List (CacheKey × α)
  | [], _ => []
  | e :: rest, p => if e.1.1 = p then removeEntries rest p else e :: removeEntries rest p

/-- `remove_page(page_number)`: remove all cached items for a page, at every
zoom level. -/
def remove_page {α : Type} (c : DocumentCache α) (page_number : Nat) :
    DocumentCache α :=
  { c with page_cache := removeEntries c.page_cache page_number }

end DocumentCache

/-- The snapshot returned by the `cache_info` property. -/
structure CacheInfo : Type where
  size : Nat
  max_size : Nat
  pages : List Nat
deriving DecidableEq

/-- Insert into a sorted list of naturals (for `sorted(...)`). -/
def insertSorted (n : Nat) : List Nat → List Nat
  | [] => [n]
  | m :: rest => if n ≤ m then n :: m :: rest else m :: insertSorted n rest

/-- `sorted(...)` on a list of naturals (insertion sort). -/
def sortNat : List Nat → List Nat
  | [] => []
  | n :: rest => insertSorted n (sortNat rest)

namespace DocumentCache

/-- `cache_info`: size, capacity, and the sorted set of distinct page indices
present (`sorted(list(set(k[0] for k in keys)))`). -/
def cache_info {α : Type} (c : DocumentCache α) : CacheInfo :=
  { size := c.page_cache.length
    max_size := c.max_size
    pages := sortNat ((c.page_cache.map (fun e => e.1.1)).dedup) }

end DocumentCache

/-- A sequence of `add_page_image` calls (page, zoom, image) run against a
cache state, stopping at the first raised exception. -/
def insertSeq {α : Type} (c : DocumentCache α) :
    List (Nat × ℚ × α) → Except CacheError (DocumentCache α)
  | [] => .ok c
  | (p, z, img) :: rest =>
    match c.add_page_image p img z with
    | .ok c' => insertSeq c' rest
    | .error err => .error err

/-!
## The document model (`src/models/pdf_document.py`)

`PDFDocument` owns an optional engine handle (`self.doc`), the originating
path (`self.filepath`) and a `DocumentCache`.  The PyMuPDF engine is a black
box: `FitzEngine` records, per path, whether `fitz.open` succeeds and with
which handle, how pages render, whether `Document.save` succeeds, plus a log
of the mutation/save calls issued to the engine and the set of handle ids
that have been closed.  A method that can raise returns its Python result as
an `Except` together with the engine and document states at the moment the
method returns (or the exception escapes) — mutations made before a raise
persist, exactly as in Python.
-/

/-- The exception classes of `src/models/pdf_errors.py` that this model can
raise: `PDFDocumentError`, `PDFPageError` and the base `PDFError`, each with
its message; plus Python's built-in `KeyError` (not a `PDFError` subclass),
which escapes uncaught if the cache's `popitem` raises. -/
inductive PDFErr : Type
  | documentError (msg : String) : PDFErr
  | pageError (msg : String) : PDFErr
  | pdfError (msg : String) : PDFErr
  | keyError : PDFErr
deriving DecidableEq

/-- A PyMuPDF document handle: its identity, its current page count and its
encryption flag. -/
structure DocHandle : Type where
  hid : Nat
  page_count : Nat
  is_encrypted : Bool
deriving DecidableEq

/-- A call made into the PyMuPDF engine (mutations and saves; used to state
that the engine was, or was not, invoked). -/
inductive EngineCall : Type
  | deletePage (hid : Nat) (page : Int) : EngineCall
  | deletePages (hid : Nat) (from_page to_page : Int) : EngineCall
  | save (hid : Nat) (path : String) (garbage : Option Nat)
      (deflate clean : Option Bool) (incremental : Bool)
      (encryption : Bool) : EngineCall
deriving DecidableEq

/-- The PyMuPDF engine as seen by `PDFDocument`: the behaviour of
`fitz.open` and `Page.get_pixmap`, the outcome of `Document.save`, the log
of calls issued, and the ids of handles that have been closed. -/
structure FitzEngine (α : Type) : Type where
  openResult : String → Except String DocHandle
  render : Nat → Nat → ℚ → α
  saveResult : Nat → String → Except String Unit
  calls : List EngineCall
  closed : List Nat

/-- `PDFDocument` state: `self.filepath`, `self.doc` and `self._cache`. -/
structure PDFDocument (α : Type) : Type where
  filepath : Option String
  doc : Option DocHandle
  cache : DocumentCache α

namespace PDFDocument

/-- `PDFDocument()` with no filepath: nothing loaded, a fresh cache with the
default `max_size` of 100. -/
def initEmpty (α : Type) : PDFDocument α :=
  { filepath := none, doc := none, cache := DocumentCache.init α 100 }

/-- `load(filepath)`: `self.doc = fitz.open(filepath)`, then clear the cache
and set `self.filepath`.  If `fitz.open` raises, nothing has been assigned
yet and the exception is re-raised as
`PDFDocumentError("Failed to open PDF document: ...")`. -/
def load {α : Type} (e : FitzEngine α) (d : PDFDocument α) (filepath : String) :
    Except PDFErr Unit × FitzEngine α × PDFDocument α :=
  match e.openResult filepath with
  | .ok h =>
      (.ok (), e,
        { filepath := some filepath, doc := some h, cache := d.cache.clear })
  | .error msg =>
      (.error (.documentError ("Failed to open PDF document: " ++ msg)), e, d)

/-- The `Document.save` engine call `save` issues: incremental without the
optimization parameters when the target equals `self.filepath`,
non-incremental with `garbage`/`deflate`/`clean` otherwise; `encryption` is
passed as `self.doc.is_encrypted` in both branches. -/
def saveEngineCall {α : Type} (d : PDFDocument α) (h : DocHandle)
    (filepath : String) (garbage : Nat) (deflate clean : Bool) : EngineCall :=
  if d.filepath = some filepath then
    .save h.hid filepath none none none true h.is_encrypted
  else
    .save h.hid filepath (some garbage) (some deflate) (some clean)
      false h.is_encrypted

/-- `save(filepath, garbage, deflate, clean)`: raises `PDFDocumentError` when
no document is loaded; otherwise issues the engine save call chosen by
`saveEngineCall`; a failing engine save is re-raised as
`PDFError("Failed to save PDF: ...")`. -/
def save {α : Type} (e : FitzEngine α) (d : PDFDocument α) (filepath : String)
    (garbage : Nat) (deflate : Bool) (clean : Bool) :
    Except PDFErr Unit × FitzEngine α × PDFDocument α :=
  match d.doc with
  | none => (.error (.documentError "Cannot save: No document loaded."), e, d)
  | some h =>
      match e.saveResult h.hid filepath with
      | .ok _ =>
          (.ok (),
           { e with calls := e.calls ++
               [saveEngineCall d h filepath garbage deflate clean] }, d)
      | .error msg =>
          (.error (.pdfError ("Failed to save PDF: " ++ msg)),
           { e with calls := e.calls ++
               [saveEngineCall d h filepath garbage deflate clean] }, d)

/-- `close()`: closes the handle, clears the cache and resets the path; a
no-op when nothing is loaded. -/
def close {α : Type} (e : FitzEngine α) (d : PDFDocument α) :
    FitzEngine α × PDFDocument α :=
  match d.doc with
  | none => (e, d)
  | some h =>
      ({ e with closed := e.closed ++ [h.hid] },
       { filepath := none, doc := none, cache := d.cache.clear })

/-- `delete_page(page_number)` (guarded by `@require_document`): in range,
delegate to the engine and invalidate the page's cache entries; out of
range, raise `PDFPageError` before any engine call. -/
def delete_page {α : Type} (e : FitzEngine α) (d : PDFDocument α)
    (page_number : Int) : Except PDFErr Unit × FitzEngine α × PDFDocument α :=
  match d.doc with
  | none =>
      (.error (.documentError "Cannot delete_page: No document loaded"), e, d)
  | some h =>
      if 0 ≤ page_number ∧ page_number < (h.page_count : Int) then
        (.ok (),
         { e with calls := e.calls ++ [.deletePage h.hid page_number] },
         { d with doc := some { h with page_count := h.page_count - 1 },
                  cache := d.cache.remove_page page_number.toNat })
      else
        (.error (.pageError "Page number out of range."), e, d)

/-- The cache invalidation loop of `delete_pages`: `remove_page` for every
page number in `range(from_page, to_page + 1)`. -/
def removeRange {α : Type} (c : DocumentCache α) (from_page : Nat) :
    Nat → DocumentCache α
  | 0 => c
  | n + 1 => removeRange (c.remove_page from_page) (from_page + 1) n

/-- `delete_pages(from_page, to_page)` (guarded by `@require_document`):
requires `0 <= from_page <= to_page < page_count`; on success delegates to
the engine and invalidates every deleted page's cache entries; otherwise
raises `PDFPageError` before any engine call. -/
def delete_pages {α : Type} (e : FitzEngine α) (d : PDFDocument α)
    (from_page to_page : Int) :
    Except PDFErr Unit × FitzEngine α × PDFDocument α :=
  match d.doc with
  | none =>
      (.error (.documentError "Cannot delete_pages: No document loaded"), e, d)
  | some h =>
      if 0 ≤ from_page ∧ from_page ≤ to_page ∧ to_page < (h.page_count : Int) then
        (.ok (),
         { e with calls := e.calls ++ [.deletePages h.hid from_page to_page] },
         { d with
             doc := some
               { h with
                 page_count := h.page_count - (to_page - from_page + 1).toNat },
             cache := removeRange d.cache from_page.toNat
               (to_page - from_page + 1).toNat })
      else
        (.error (.pageError "Page numbers out of range."), e, d)

/-- `get_page_image(page_number, zoom)` (guarded by `@require_document`):
out-of-range page numbers yield `None`; otherwise consult the cache, and on
a miss render through the engine and populate the cache.  (A `KeyError`
escaping `add_page_image` — possible only with `max_size = 0` — propagates
with the cache as the miss left it.) -/
def get_page_image {α : Type} (e : FitzEngine α) (d : PDFDocument α)
    (page_number : Int) (zoom : ℚ) :
    Except PDFErr (Option α) × FitzEngine α × PDFDocument α :=
  match d.doc with
  | none =>
      (.error (.documentError "Cannot get_page_image: No document loaded"), e, d)
  | some h =>
      if 0 ≤ page_number ∧ page_number < (h.page_count : Int) then
        let p : Nat := page_number.toNat
        match d.cache.get_page_image p zoom with
        | (some img, c1) => (.ok (some img), e, { d with cache := c1 })
        | (none, c1) =>
            let pixmap : α := e.render h.hid p zoom
            match c1.add_page_image p pixmap zoom with
            | .ok c2 => (.ok (some pixmap), e, { d with cache := c2 })
            | .error _ =>
                (.error .keyError, e, { d with cache := c1 })
      else
        (.ok none, e, d)

end PDFDocument

/-!
## Concrete fixtures for witnesses and counterexamples
-/

/-- An engine on which every open succeeds with a fresh 3-page handle of id 1
and every save succeeds. -/
def demoEngine : FitzEngine Nat :=
  { openResult := fun _ => .ok { hid := 1, page_count := 3, is_encrypted := false }
    render := fun _ _ _ => 0
    saveResult := fun _ _ => .ok ()
    calls := []
    closed := [] }

/-- An engine on which every open raises with diagnostic "boom". -/
def demoFailEngine : FitzEngine Nat :=
  { openResult := fun _ => .error "boom"
    render := fun _ _ _ => 0
    saveResult := fun _ _ => .ok ()
    calls := []
    closed := [] }

/-- A resource holding a 2-page document (handle id 0) with one cached
image. -/
def demoDoc : PDFDocument Nat :=
  { filepath := some "old.pdf"
    doc := some { hid := 0, page_count := 2, is_encrypted := false }
    cache := DocumentCache.mk 100 [((0, 100), 5)] }

/-- A resource holding a 3-page document (handle id 1) with an empty
cache. -/
def demoDoc3 : PDFDocument Nat :=
  { filepath := some "a.pdf"
    doc := some { hid := 1, page_count := 3, is_encrypted := false }
    cache := DocumentCache.init Nat 100 }

/-!
## Helper lemmas about the cache operations
-/

/-- `round2` agrees with Mathlib's `round (z * 100)`: rounding the zoom to
two decimal places and scaling by 100. -/
theorem round2_eq (z : ℚ) : round2 z = round (z * 100) := by
  have hd : (z.den : ℚ) ≠ 0 := Nat.cast_ne_zero.mpr z.den_nz
  rw [round_eq]
  conv_rhs => rw [← Rat.num_div_den z]
  have key : (z.num : ℚ) / (z.den : ℚ) * 100 + 1 / 2 =
      ((200 * z.num + (z.den : ℤ) : ℤ) : ℚ) / ((2 * z.den : ℕ) : ℚ) := by
    push_cast
    field_simp
    ring
  rw [key, Rat.floor_intCast_div_natCast, round2]
  push_cast
  ring_nf

/-- The result component of a lookup is the binding of the rounded key. -/
theorem get_page_image_fst {α : Type} (c : DocumentCache α) (q : Nat) (z : ℚ) :
    (c.get_page_image q z).1 = findEntry c.page_cache (q, round2 z) := by
  unfold DocumentCache.get_page_image
  cases h : findEntry c.page_cache (q, round2 z) <;> simp [h]

/-- An insert into a cache with `max_size ≥ 1` succeeds, preserves
`max_size`, and preserves the bound `length ≤ max_size`. -/
theorem add_page_image_ok {α : Type} (c : DocumentCache α) (p : Nat) (img : α)
    (z : ℚ) (hm : 1 ≤ c.max_size) :
    ∃ c', c.add_page_image p img z = .ok c' ∧ c'.max_size = c.max_size ∧
      (c.page_cache.length ≤ c.max_size →
        c'.page_cache.length ≤ c.max_size) := by
  by_cases h1 : (findEntry c.page_cache (p, round2 z)).isSome
  · exact ⟨c, by rw [DocumentCache.add_page_image, if_pos h1], rfl, fun h => h⟩
  · by_cases h2 : c.max_size ≤ c.page_cache.length
    · cases hc : c.page_cache with
      | nil =>
          exfalso
          rw [hc] at h2
          simp only [List.length_nil, Nat.le_zero] at h2
          omega
      | cons head rest =>
          refine ⟨{ c with page_cache := rest ++ [((p, round2 z), img)] },
            ?_, rfl, fun h => ?_⟩
          · rw [DocumentCache.add_page_image, if_neg h1, if_pos h2, hc]
          · have e1 : c.page_cache.length = rest.length + 1 := by
              rw [hc]; rfl
            have e2 : (head :: rest).length = rest.length + 1 := rfl
            simp only [List.length_append, List.length_singleton]
            omega
    · refine ⟨{ c with page_cache := c.page_cache ++ [((p, round2 z), img)] },
        ?_, rfl, fun _ => ?_⟩
      · rw [DocumentCache.add_page_image, if_neg h1, if_neg h2]
      · simp only [List.length_append, List.length_singleton]
        omega

/-- A sequence of inserts starting from a state within capacity (with
`max_size ≥ 1`) raises nothing and stays within capacity. -/
theorem insertSeq_ok {α : Type} :
    ∀ (ops : List (Nat × ℚ × α)) (c : DocumentCache α), 1 ≤ c.max_size →
      c.page_cache.length ≤ c.max_size →
      ∃ c', insertSeq c ops = .ok c' ∧ c'.max_size = c.max_size ∧
        c'.page_cache.length ≤ c.max_size
  | [], c, _, hlen => ⟨c, rfl, rfl, hlen⟩
  | (p, z, img) :: rest, c, hm, hlen => by
      obtain ⟨c1, hok, hmax, hbound⟩ := add_page_image_ok c p img z hm
      obtain ⟨c2, hok2, hmax2, hbound2⟩ :=
        insertSeq_ok rest c1 (by rw [hmax]; exact hm)
          (by rw [hmax]; exact hbound hlen)
      refine ⟨c2, ?_, by rw [hmax2, hmax], by rw [← hmax]; exact hbound2⟩
      unfold insertSeq
      rw [hok]
      exact hok2

/-- Looking up a removed page finds nothing, at any zoom component. -/
theorem findEntry_removeEntries_self {α : Type} :
    ∀ (l : List (CacheKey × α)) (p : Nat) (zz : ℤ),
      findEntry (DocumentCache.removeEntries l p) (p, zz) = none
  | [], _, _ => rfl
  | e :: rest, p, zz => by
      by_cases h : e.1.1 = p
      · rw [DocumentCache.removeEntries, if_pos h]
        exact findEntry_removeEntries_self rest p zz
      · have hne : e.1 ≠ (p, zz) := fun heq => h (by rw [heq])
        rw [DocumentCache.removeEntries, if_neg h, findEntry, if_neg hne]
        exact findEntry_removeEntries_self rest p zz

/-- Removing one page's entries does not change the binding of any other
page's keys. -/
theorem findEntry_removeEntries_other {α : Type} :
    ∀ (l : List (CacheKey × α)) (p q : Nat) (zz : ℤ), q ≠ p →
      findEntry (DocumentCache.removeEntries l p) (q, zz) =
        findEntry l (q, zz)
  | [], _, _, _, _ => rfl
  | e :: rest, p, q, zz, hq => by
      by_cases h : e.1.1 = p
      · have hne : e.1 ≠ (q, zz) := by
          intro heq
          rw [heq] at h
          exact hq h
        rw [DocumentCache.removeEntries, if_pos h]
        conv_rhs => rw [findEntry, if_neg hne]
        exact findEntry_removeEntries_other rest p q zz hq
      · rw [DocumentCache.removeEntries, if_neg h]
        by_cases he : e.1 = (q, zz)
        · rw [findEntry, if_pos he]
          conv_rhs => rw [findEntry, if_pos he]
        · rw [findEntry, if_neg he]
          conv_rhs => rw [findEntry, if_neg he]
          exact findEntry_removeEntries_other rest p q zz hq

/-!
## The claims
-/

/-- C1: for any `max_size ≥ 1` (the default is 100), every sequence of
inserts on a fresh cache succeeds with at most `max_size` entries after
every call; an insert of a new key into a cache at capacity evicts exactly
one entry — the least-recently-used one at the front — before storing the
new entry at the back. -/
theorem c1_insert_bounded_single_eviction {α : Type} (m : Nat) (hm : 1 ≤ m) :
    (∀ ops : List (Nat × ℚ × α),
      ∃ c, insertSeq (DocumentCache.init α m) ops = .ok c ∧
        c.page_cache.length ≤ m) ∧
    (∀ (c : DocumentCache α) (p : Nat) (z : ℚ) (img : α),
      c.max_size = m → c.page_cache.length = m →
      findEntry c.page_cache (p, round2 z) = none →
      ∃ ev rest, c.page_cache = ev :: rest ∧
        c.add_page_image p img z =
          .ok { c with page_cache := rest ++ [((p, round2 z), img)] }) := by
  constructor
  · intro ops
    obtain ⟨c, hok, _, hlen⟩ :=
      insertSeq_ok ops (DocumentCache.init α m) hm (by simp [DocumentCache.init])
    exact ⟨c, hok, hlen⟩
  · intro c p z img hmax hlen hfind
    cases hc : c.page_cache with
    | nil =>
        exfalso
        rw [hc] at hlen
        simp at hlen
        omega
    | cons ev rest =>
        refine ⟨ev, rest, rfl, ?_⟩
        unfold DocumentCache.add_page_image
        rw [hfind, if_neg (by simp), if_pos (by omega), hc]

/-- Witness for C1 at `max_size = 1`. -/
theorem c1_witness :
    (∃ c, insertSeq (DocumentCache.init Nat 1) [(0, 1, 7), (1, 1, 8)] = .ok c ∧
      c.page_cache.length ≤ 1) ∧
    (∃ ev rest,
      (DocumentCache.mk 1 [((5, 100), 9)] : DocumentCache Nat).page_cache =
        ev :: rest ∧
      (DocumentCache.mk 1 [((5, 100), 9)]).add_page_image 0 7 1 =
        .ok { DocumentCache.mk 1 [((5, 100), 9)] with
              page_cache := rest ++ [((0, round2 1), 7)] }) :=
  ⟨(c1_insert_bounded_single_eviction 1 (by decide)).1 [(0, 1, 7), (1, 1, 8)],
   (c1_insert_bounded_single_eviction 1 (by decide)).2
     (DocumentCache.mk 1 [((5, 100), 9)]) 0 1 7 rfl rfl (by decide)⟩

/-- C2: the LRU scenario with `max_size = 2` — insert page0↦A and page1↦B,
look page0 up (promoting it), insert page2↦C (evicting page1, the least
recently used), then lookups return A for page0, nothing for page1, and C
for page2. -/
theorem c2_lru_promotion_scenario :
    (do
      let c1 ← (DocumentCache.init Nat 2).add_page_image 0 10 1
      let c2 ← c1.add_page_image 1 11 1
      let look0 := c2.get_page_image 0 1
      let c3 ← look0.2.add_page_image 2 12 1
      let lookA := c3.get_page_image 0 1
      let lookB := lookA.2.get_page_image 1 1
      let lookC := lookB.2.get_page_image 2 1
      pure (look0.1, lookA.1, lookB.1, lookC.1)) =
    .ok (some 10, some 10, none, some 12) := by rfl

/-- C3: an insert for an already-present key is a first-write-wins no-op:
the cache state (content, size, recency order) is returned unchanged, and a
subsequent lookup still yields the originally stored image. -/
theorem c3_duplicate_insert_noop {α : Type} (c : DocumentCache α) (p : Nat)
    (z : ℚ) (A B : α) (h : findEntry c.page_cache (p, round2 z) = some A) :
    c.add_page_image p B z = .ok c ∧ (c.get_page_image p z).1 = some A := by
  constructor
  · unfold DocumentCache.add_page_image
    rw [h]
    rfl
  · rw [get_page_image_fst, h]

/-- Witness for C3. -/
theorem c3_witness :
    (DocumentCache.mk 2 [((0, 100), 5)] : DocumentCache Nat).add_page_image
        0 6 1 = .ok (DocumentCache.mk 2 [((0, 100), 5)]) ∧
    ((DocumentCache.mk 2 [((0, 100), 5)] : DocumentCache Nat).get_page_image
        0 1).1 = some 5 :=
  c3_duplicate_insert_noop (DocumentCache.mk 2 [((0, 100), 5)]) 0 1 5 6 (by rfl)

/-- C4 counterexample: inserting a new key into a cache constructed with
`max_size = 0` raises (`OrderedDict.popitem(last=False)` on the empty dict
raises `KeyError`), refuting totality of insert at `max_size = 0`. -/
theorem c4_counterexample :
    (DocumentCache.init Nat 0).add_page_image 0 7 1 =
      .error CacheError.keyError := by rfl

/-- C4 (amended): every cache operation is total on a cache with
`max_size ≥ 1`.  Lookup, page invalidation, clear and stats are total
functions of the state for every `max_size`; insert — the only operation
that can raise — always succeeds (or is a no-op) when `max_size ≥ 1`. -/
theorem c4_operations_total {α : Type} (c : DocumentCache α) (p : Nat)
    (img : α) (z : ℚ) (hm : 1 ≤ c.max_size) :
    ∃ c', c.add_page_image p img z = .ok c' := by
  obtain ⟨c', hok, _, _⟩ := add_page_image_ok c p img z hm
  exact ⟨c', hok⟩

/-- Witness for C4 (amended) at `max_size = 1`. -/
theorem c4_witness :
    ∃ c', (DocumentCache.init Nat 1).add_page_image 0 7 1 = .ok c' :=
  c4_operations_total (DocumentCache.init Nat 1) 0 7 1 (by decide)

/-- C5: `remove_page p` removes exactly the entries whose page-index
component is `p`: afterwards a lookup of page `p` at any zoom is empty,
while a lookup of any other page at any zoom returns the same image as
before. -/
theorem c5_remove_page_frame {α : Type} (c : DocumentCache α) (p : Nat) :
    (∀ z : ℚ, ((c.remove_page p).get_page_image p z).1 = none) ∧
    (∀ (q : Nat) (z : ℚ), q ≠ p →
      ((c.remove_page p).get_page_image q z).1 = (c.get_page_image q z).1) := by
  constructor
  · intro z
    rw [get_page_image_fst]
    exact findEntry_removeEntries_self c.page_cache p (round2 z)
  · intro q z hq
    rw [get_page_image_fst, get_page_image_fst]
    exact findEntry_removeEntries_other c.page_cache p q (round2 z) hq

/-- Witness for C5 on a two-page cache. -/
theorem c5_witness :
    (((DocumentCache.mk 100 [((0, 100), 1), ((1, 100), 2)] :
        DocumentCache Nat).remove_page 1).get_page_image 1 1).1 = none ∧
    (((DocumentCache.mk 100 [((0, 100), 1), ((1, 100), 2)] :
        DocumentCache Nat).remove_page 1).get_page_image 0 1).1 =
      ((DocumentCache.mk 100 [((0, 100), 1), ((1, 100), 2)] :
        DocumentCache Nat).get_page_image 0 1).1 :=
  ⟨(c5_remove_page_frame (DocumentCache.mk 100 [((0, 100), 1), ((1, 100), 2)])
      1).1 1,
   (c5_remove_page_frame (DocumentCache.mk 100 [((0, 100), 1), ((1, 100), 2)])
      1).2 0 1 (by decide)⟩

/-- C6 counterexample: on a resource already holding handle 0, a successful
`load` of a new path does NOT close the prior handle — the engine's set of
closed handles stays empty, refuting "closes the prior handle before
replacing it". -/
theorem c6_counterexample :
    (PDFDocument.load demoEngine demoDoc "new.pdf").1 = .ok () ∧
    0 ∉ (PDFDocument.load demoEngine demoDoc "new.pdf").2.1.closed := by
  exact ⟨rfl, by decide⟩

/-- C6 (amended): a successful `load` installs the newly opened handle, sets
the path and clears the cache, but leaves the engine state — in particular
the set of closed handles — unchanged: the prior handle is replaced without
being closed. -/
theorem c6_load_replaces_without_closing {α : Type} (e : FitzEngine α)
    (d : PDFDocument α) (path : String) (h : DocHandle)
    (hopen : e.openResult path = .ok h) :
    PDFDocument.load e d path =
      (.ok (), e,
       { filepath := some path, doc := some h, cache := d.cache.clear }) := by
  unfold PDFDocument.load
  rw [hopen]

/-- Witness for C6 (amended). -/
theorem c6_witness :
    PDFDocument.load demoEngine demoDoc "new.pdf" =
      (.ok (), demoEngine,
       { filepath := some "new.pdf",
         doc := some { hid := 1, page_count := 3, is_encrypted := false },
         cache := demoDoc.cache.clear }) :=
  c6_load_replaces_without_closing demoEngine demoDoc "new.pdf"
    { hid := 1, page_count := 3, is_encrypted := false } rfl

/-- C7: `get_page_image` raises `PDFDocumentError` ("No document loaded")
when no document is open, and on an open document returns `None` — raising
nothing and changing nothing — for any page index outside
`[0, page_count)`. -/
theorem c7_render_page_guards {α : Type} (e : FitzEngine α) :
    (∀ (d : PDFDocument α) (i : Int) (z : ℚ), d.doc = none →
      PDFDocument.get_page_image e d i z =
        (.error (.documentError "Cannot get_page_image: No document loaded"),
         e, d)) ∧
    (∀ (d : PDFDocument α) (h : DocHandle) (i : Int) (z : ℚ),
      d.doc = some h → ¬(0 ≤ i ∧ i < (h.page_count : Int)) →
      PDFDocument.get_page_image e d i z = (.ok none, e, d)) := by
  constructor
  · intro d i z hd
    unfold PDFDocument.get_page_image
    rw [hd]
  · intro d h i z hd hrange
    unfold PDFDocument.get_page_image
    simp only [hd]
    rw [if_neg hrange]

/-- Witness for C7: an unopened resource raises; a 3-page document at page
index 5 returns `None` without error. -/
theorem c7_witness :
    PDFDocument.get_page_image demoEngine (PDFDocument.initEmpty Nat) 0 1 =
      (.error (.documentError "Cannot get_page_image: No document loaded"),
       demoEngine, PDFDocument.initEmpty Nat) ∧
    PDFDocument.get_page_image demoEngine demoDoc3 5 1 =
      (.ok none, demoEngine, demoDoc3) :=
  ⟨(c7_render_page_guards demoEngine).1 (PDFDocument.initEmpty Nat) 0 1 rfl,
   (c7_render_page_guards demoEngine).2 demoDoc3
     { hid := 1, page_count := 3, is_encrypted := false } 5 1 rfl (by decide)⟩

/-- C8: on a loaded document, `delete_page` with an out-of-range index and
`delete_pages` with `from > to` or an out-of-range bound raise `PDFPageError`
with the engine never invoked (its call log and all its state unchanged) and
the document and cache unchanged. -/
theorem c8_mutation_bounds_fail_fast {α : Type} (e : FitzEngine α)
    (d : PDFDocument α) (h : DocHandle) (hd : d.doc = some h) :
    (∀ i : Int, (i < 0 ∨ (h.page_count : Int) ≤ i) →
      PDFDocument.delete_page e d i =
        (.error (.pageError "Page number out of range."), e, d)) ∧
    (∀ f t : Int,
      (t < f ∨ f < 0 ∨ (h.page_count : Int) ≤ f ∨ t < 0 ∨
        (h.page_count : Int) ≤ t) →
      PDFDocument.delete_pages e d f t =
        (.error (.pageError "Page numbers out of range."), e, d)) := by
  constructor
  · intro i hi
    have hcond : ¬(0 ≤ i ∧ i < (h.page_count : Int)) := by
      rcases hi with h1 | h1 <;> omega
    unfold PDFDocument.delete_page
    simp only [hd]
    rw [if_neg hcond]
  · intro f t hft
    have hcond : ¬(0 ≤ f ∧ f ≤ t ∧ t < (h.page_count : Int)) := by
      rcases hft with h1 | h1 | h1 | h1 | h1 <;> omega
    unfold PDFDocument.delete_pages
    simp only [hd]
    rw [if_neg hcond]

/-- Witness for C8 on a 3-page document: `delete_page(5)` and
`delete_pages(2, 1)` are rejected without touching engine, document or
cache. -/
theorem c8_witness :
    PDFDocument.delete_page demoEngine demoDoc3 5 =
      (.error (.pageError "Page number out of range."), demoEngine, demoDoc3) ∧
    PDFDocument.delete_pages demoEngine demoDoc3 2 1 =
      (.error (.pageError "Page numbers out of range."), demoEngine,
       demoDoc3) :=
  ⟨(c8_mutation_bounds_fail_fast demoEngine demoDoc3
      { hid := 1, page_count := 3, is_encrypted := false } rfl).1 5
      (by norm_num),
   (c8_mutation_bounds_fail_fast demoEngine demoDoc3
      { hid := 1, page_count := 3, is_encrypted := false } rfl).2 2 1
      (by norm_num)⟩

/-- C9: on a loaded document, saving to the stored `filepath` issues the
incremental engine save without the optimization parameters, while saving to
any other path issues a non-incremental engine save carrying the
caller-supplied `garbage`, `deflate` and `clean` options. -/
theorem c9_save_mode_selection {α : Type} (e : FitzEngine α)
    (d : PDFDocument α) (h : DocHandle) (hd : d.doc = some h) (path : String)
    (g : Nat) (df cl : Bool) :
    (d.filepath = some path →
      (PDFDocument.save e d path g df cl).2.1.calls =
        e.calls ++ [.save h.hid path none none none true h.is_encrypted]) ∧
    (d.filepath ≠ some path →
      (PDFDocument.save e d path g df cl).2.1.calls =
        e.calls ++ [.save h.hid path (some g) (some df) (some cl) false
          h.is_encrypted]) := by
  constructor
  · intro hpath
    unfold PDFDocument.save
    rw [hd]
    cases hs : e.saveResult h.hid path <;>
      simp [hs, PDFDocument.saveEngineCall, hpath]
  · intro hpath
    unfold PDFDocument.save
    rw [hd]
    cases hs : e.saveResult h.hid path <;>
      simp [hs, PDFDocument.saveEngineCall, hpath]

/-- Witness for C9 on a document loaded from "a.pdf". -/
theorem c9_witness :
    (PDFDocument.save demoEngine demoDoc3 "a.pdf" 4 true false).2.1.calls =
      [] ++ [.save 1 "a.pdf" none none none true false] ∧
    (PDFDocument.save demoEngine demoDoc3 "b.pdf" 4 true false).2.1.calls =
      [] ++ [.save 1 "b.pdf" (some 4) (some true) (some false) false false] :=
  ⟨(c9_save_mode_selection demoEngine demoDoc3
      { hid := 1, page_count := 3, is_encrypted := false } rfl "a.pdf" 4 true
      false).1 rfl,
   (c9_save_mode_selection demoEngine demoDoc3
      { hid := 1, page_count := 3, is_encrypted := false } rfl "b.pdf" 4 true
      false).2 (by simp [demoDoc3])⟩

/-- C10: a failed `load` is atomic: if the engine's open raises, `load`
raises `PDFDocumentError` (preserving the engine diagnostic) and both the
engine and the resource are returned exactly as they were — the prior handle
is still installed and not closed, the path keeps its value, and the cache
is untouched. -/
theorem c10_failed_load_atomic {α : Type} (e : FitzEngine α)
    (d : PDFDocument α) (path : String) (msg : String)
    (hopen : e.openResult path = .error msg) :
    PDFDocument.load e d path =
      (.error (.documentError ("Failed to open PDF document: " ++ msg)),
       e, d) := by
  unfold PDFDocument.load
  rw [hopen]

/-- Witness for C10: a failing open on a resource with a loaded document and
a populated cache changes nothing. -/
theorem c10_witness :
    PDFDocument.load demoFailEngine demoDoc "new.pdf" =
      (.error (.documentError ("Failed to open PDF document: " ++ "boom")),
       demoFailEngine, demoDoc) :=
  c10_failed_load_atomic demoFailEngine demoDoc "new.pdf" "boom" rfl
